import Mathlib

/-!
Verification development for the RenovateAgent polling and state-reconciliation
subsystem.  Each definition below is a shallow embedding of a function or class
from `src/renovate_agent` (the Python source); file and line references are
given in the doc comments.  Machine integers and floats are modelled by `Nat`,
`Int` and `Rat` (the Python code uses arbitrary-precision ints and IEEE doubles;
every numeric fact proved here is robust to that abstraction).  The SHA-256
digest in `PRState.to_hash` is modelled by the digest input string itself,
i.e. the hash function is abstracted as an injective function; two states have
equal model hashes exactly when the real code hashes equal input strings.
-/

namespace RenovateAgent

/-! ## String utilities

`re.search(r"<!-- DASHBOARD_DATA\n(.*?)\n-->", body, re.DOTALL)` in
`state_tracker.py` (lines 620-631) and `issue_manager.py` (line 336) is
modelled by explicit substring search: the regex matches iff the opening
literal occurs and a closing literal occurs after it, and the captured group
is the text between the first opening marker and the first closing marker
after it (leftmost match, non-greedy capture). -/

/-- startsWithChars pat l is true iff pat is an initial segment of l. -/
def startsWithChars : List Char → List Char → Bool
  | [], _ => true
  | _ :: _, [] => false
  | p :: ps, c :: cs => p == c && startsWithChars ps cs

/-- findIdxChars pat l is the index of the first occurrence of pat in l. -/
def findIdxChars (pat : List Char) : List Char → Option Nat
  | [] => if startsWithChars pat [] then some 0 else none
  | c :: cs =>
    if startsWithChars pat (c :: cs) then some 0
    else (findIdxChars pat cs).map (· + 1)

/-- containsSub pat s is true iff the string pat occurs inside the string s. -/
def containsSub (pat s : String) : Bool :=
  (findIdxChars pat.data s.data).isSome

/-- Opening delimiter of the machine-readable block in a dashboard issue body. -/
def openMarker : String := "<!-- DASHBOARD_DATA\n"

/-- Closing delimiter of the machine-readable block in a dashboard issue body. -/
def closeMarker : String := "\n-->"

/-- findDashboardBlock body returns the captured group of
re.search on the DASHBOARD_DATA comment pattern: the text between the first
opening marker and the first closing marker after it, or none when the
pattern does not match. -/
def findDashboardBlock (body : String) : Option String :=
  match findIdxChars openMarker.data body.data with
  | none => none
  | some i =>
    let rest := body.data.drop (i + openMarker.data.length)
    match findIdxChars closeMarker.data rest with
    | none => none
    | some j => some (String.mk (rest.take j))

/-! ## PRState and delta detection (`polling/state_tracker.py`) -/

/-- PRState (state_tracker.py lines 22-41): snapshot of one pull request's
processing-relevant facts, with the constructor defaults already applied. -/
structure PRState where
  pr_number : String
  state : String
  updated_at : String
  head_sha : String
  mergeable_state : String
  check_runs_conclusion : String
  has_conflicts : Bool
deriving DecidableEq, Repr

/-- pyOrStr v d models the Python expression v or d for an optional string v:
None and the empty string are falsy and replaced by the default. -/
def pyOrStr (v : Option String) (d : String) : String :=
  match v with
  | none => d
  | some s => if s = "" then d else s

/-- PRState.make models PRState.__init__ (state_tracker.py lines 25-41):
mergeable_state defaults to "unknown" and check_runs_conclusion to "pending"
via the Python or operator. -/
def PRState.make (pr_number state updated_at head_sha : String)
    (mergeable_state check_runs_conclusion : Option String)
    (has_conflicts : Bool) : PRState :=
  { pr_number := pr_number
    state := state
    updated_at := updated_at
    head_sha := head_sha
    mergeable_state := pyOrStr mergeable_state "unknown"
    check_runs_conclusion := pyOrStr check_runs_conclusion "pending"
    has_conflicts := has_conflicts }

/-- pyBoolStr b is the Python str() rendering of a bool, as interpolated by
the f-string in to_hash. -/
def pyBoolStr (b : Bool) : String := if b then "True" else "False"

/-- stateString models the f-string built in PRState.to_hash
(state_tracker.py line 45): the colon-joined rendering of state, updated_at,
head_sha, mergeable_state, check_runs_conclusion and has_conflicts. -/
def stateString (s : PRState) : String :=
  s.state ++ ":" ++ s.updated_at ++ ":" ++ s.head_sha ++ ":" ++
    s.mergeable_state ++ ":" ++ s.check_runs_conclusion ++ ":" ++
    pyBoolStr s.has_conflicts

/-- toHash models PRState.to_hash (state_tracker.py lines 43-46).  The code
returns hexdigest of SHA-256 of stateString; SHA-256 is modelled as an
injective function, so the model hash is the digest input itself and two
model hashes are equal exactly when the code hashes equal input strings. -/
def toHash (s : PRState) : String := stateString s

/-- hasChanged models PRState.has_changed (state_tracker.py lines 48-50). -/
def hasChanged (a b : PRState) : Bool := decide (toHash a ≠ toHash b)

/-- isActionableChange models PRState.is_actionable_change
(state_tracker.py lines 52-67): false when the hash is unchanged, otherwise
true iff any of the five processing-relevant fields differ. -/
def isActionableChange (a b : PRState) : Bool :=
  if hasChanged a b = false then false
  else
    decide (a.state ≠ b.state) ||
    decide (a.head_sha ≠ b.head_sha) ||
    decide (a.mergeable_state ≠ b.mergeable_state) ||
    decide (a.check_runs_conclusion ≠ b.check_runs_conclusion) ||
    decide (a.has_conflicts ≠ b.has_conflicts)

/-- ChangeKind: the change_type strings produced by detect_pr_changes. -/
inductive ChangeKind where
  | new
  | updated
  | unchanged
deriving DecidableEq, Repr

/-- classifyPR models one iteration of the loop in
PollingStateTracker.detect_pr_changes (state_tracker.py lines 383-413):
a PR whose number is not a key of the stored states is new; otherwise it is
updated when is_actionable_change holds against the stored state and
unchanged when it does not.  The stored-state dict is modelled as an
association list looked up by PR number. -/
def classifyPR (stored : List (String × PRState)) (c : PRState) :
    PRState × ChangeKind :=
  match List.lookup c.pr_number stored with
  | none => (c, ChangeKind.new)
  | some s =>
    if isActionableChange c s then (c, ChangeKind.updated)
    else (c, ChangeKind.unchanged)

/-- detectPRChanges models the try branch of
PollingStateTracker.detect_pr_changes (state_tracker.py lines 360-427):
one classification per current PR, in order. -/
def detectPRChanges (stored : List (String × PRState))
    (current : List PRState) : List (PRState × ChangeKind) :=
  current.map (classifyPR stored)

/-- detectPRChangesOnError models the except branch of detect_pr_changes
(state_tracker.py lines 429-436): when delta detection fails, every current
PR is returned as new. -/
def detectPRChangesOnError (current : List PRState) :
    List (PRState × ChangeKind) :=
  current.map (fun pr => (pr, ChangeKind.new))

/-! ## JSON values and the dashboard document (`issue_manager.py`)

Python dicts holding JSON data are modelled as ordered association lists,
matching dict insertion-order semantics.  `json.loads` is an external library
call; its outcome on a given block content is passed in as an explicit
`parse` argument (a value, a non-object value, or a raised JSONDecodeError),
so every theorem quantifies over what the JSON library could return.
`json.dumps(data, indent=2)` is modelled by a compact serializer; no claim
depends on whitespace inside the serialized block.  A Python expression that
would raise inside a `try` body is modelled by `Option` (`none` = exception,
caught by the enclosing `except`). -/

/-- JVal: a JSON value as held in Python dicts and lists. -/
inductive JVal where
  | jnull
  | jbool (b : Bool)
  | jnum (n : Int)
  | jstr (s : String)
  | jarr (xs : List JVal)
  | jobj (fields : List (String × JVal))

/-- escapeJChar renders one character inside a JSON string literal. -/
def escapeJChar (c : Char) : String :=
  if c = '"' then "\\\""
  else if c = '\\' then "\\\\"
  else if c = '\n' then "\\n"
  else String.mk [c]

/-- escapeJ renders the characters of a JSON string literal body. -/
def escapeJ (l : List Char) : String :=
  String.join (l.map escapeJChar)

mutual

/-- dumpJ models json.dumps on a JSON value (issue_manager.py line 385).
The real call uses indent=2; whitespace inside the serialized block is
abstracted to a compact rendering, which no claim depends on. -/
def dumpJ : JVal → String
  | .jnull => "null"
  | .jbool b => if b then "true" else "false"
  | .jnum n => toString n
  | .jstr s => "\"" ++ escapeJ s.data ++ "\""
  | .jarr xs => "[" ++ dumpArr xs ++ "]"
  | .jobj xs => "\x7b" ++ dumpFields xs ++ "\x7d"

/-- dumpArr serializes the elements of a JSON array. -/
def dumpArr : List JVal → String
  | [] => ""
  | [x] => dumpJ x
  | x :: tl => dumpJ x ++ ", " ++ dumpArr tl

/-- dumpFields serializes the fields of a JSON object. -/
def dumpFields : List (String × JVal) → String
  | [] => ""
  | [(k, v)] => "\"" ++ escapeJ k.data ++ "\": " ++ dumpJ v
  | (k, v) :: tl => "\"" ++ escapeJ k.data ++ "\": " ++ dumpJ v ++ ", " ++ dumpFields tl

end

/-- jGetD d k dflt models the Python expression d.get(k, dflt). -/
def jGetD (d : List (String × JVal)) (k : String) (dflt : JVal) : JVal :=
  (List.lookup k d).getD dflt

/-- dictSet d k v models the Python statement d[k] = v on an
insertion-ordered dict: replace in place when the key exists, else append. -/
def dictSet : List (String × JVal) → String → JVal → List (String × JVal)
  | [], k, v => [(k, v)]
  | (k0, v0) :: t, k, v =>
    if k0 = k then (k, v) :: t else (k0, v0) :: dictSet t k v

/-- asObj v models using a value as a dict (attribute access such as
.update or .get): succeeds only for an object, anything else raises. -/
def asObj : JVal → Option (List (String × JVal))
  | .jobj d => some d
  | _ => none

/-- asArr v models using a value as a list (len and iteration in the report
generator): succeeds only for an array; any other shape is modelled as a
raised error.  Every theorem below exercises only well-shaped data. -/
def asArr : JVal → Option (List JVal)
  | .jarr xs => some xs
  | _ => none

/-- pyStrJ v models the Python str() rendering of a JSON value, as
interpolated by the report f-strings.  Containers are rendered through the
JSON serializer (Python repr differs in quoting; no theorem renders a
container through an f-string). -/
def pyStrJ : JVal → String
  | .jnull => "None"
  | .jbool b => pyBoolStr b
  | .jnum n => toString n
  | .jstr s => s
  | v => dumpJ v

/-- jIsStr v s models the Python comparison v == s for a string literal s:
true only when v is that string (a non-string compares unequal). -/
def jIsStr (v : JVal) (s : String) : Bool :=
  match v with
  | .jstr t => t == s
  | _ => false

/-- statusEmoji models IssueStateManager._get_status_emoji
(issue_manager.py lines 484-493), including the dict-get default for an
unknown or non-string status. -/
def statusEmoji (status : JVal) : String :=
  match status with
  | .jstr s =>
    if s = "ready" then "✅"
    else if s = "waiting" then "⏳"
    else if s = "blocked" then "🚫"
    else if s = "error" then "❌"
    else if s = "unknown" then "❓"
    else "❓"
  | _ => "❓"

/-- formatLastUpdated models issue_manager.py lines 414-419: the code tries
datetime.fromisoformat on the value and reformats it, and on any exception
falls back to the raw value.  It is modelled as the raw str() rendering,
which is exact whenever the value is not an ISO-parseable string; every
theorem below uses only such values. -/
def formatLastUpdated (v : JVal) : String := pyStrJ v

/-- prLine renders one entry of the open-PR list of the report
(issue_manager.py lines 436-447). -/
def prLine (pr : List (String × JVal)) : String :=
  let emoji := statusEmoji (jGetD pr "status" (JVal.jstr "unknown"))
  let title := pyStrJ (jGetD pr "title" (JVal.jstr "Unknown"))
  let number := pyStrJ (jGetD pr "number" (JVal.jstr "?"))
  let url := pyStrJ (jGetD pr "url" (JVal.jstr "#"))
  let reason := pyStrJ (jGetD pr "status_reason" (JVal.jstr "unknown"))
  let base := "\n- " ++ emoji ++ " [#" ++ number ++ "](" ++ url ++ ") " ++ title
  if jIsStr (jGetD pr "status" (JVal.jstr "unknown")) "blocked" then
    base ++ " _(blocked: " ++ reason ++ ")_"
  else if jIsStr (jGetD pr "status" (JVal.jstr "unknown")) "waiting" then
    base ++ " _(waiting: " ++ reason ++ ")_"
  else base

/-- reportMiddle is the fixed Recent Activity / Next Actions section of the
report (issue_manager.py lines 452-465). -/
def reportMiddle : String :=
  "\n\n### 📈 Recent Activity\n\nThe Renovate PR Assistant is actively monitoring this repository for Renovate PRs and will:\n\n- ✅ **Auto-approve** PRs with passing checks\n- 🔧 **Fix dependencies** when lock files need updates\n- 🚫 **Block** PRs with failing checks or merge conflicts\n- 📊 **Update this dashboard** with real-time status\n\n### 🎯 Next Actions\n\n"

/-- generateHumanReadableReport models
IssueStateManager._generate_human_readable_report (issue_manager.py lines
399-482).  Result none models an exception escaping the function (ill-shaped
data), which the callers' try/except converts into not writing at all. -/
def generateHumanReadableReport (data : List (String × JVal)) : Option String := do
  let repoName := pyStrJ (jGetD data "repository" (JVal.jstr "Unknown Repository"))
  let openPrsRaw ← asArr (jGetD data "open_renovate_prs" (JVal.jarr []))
  let stats ← asObj (jGetD data "statistics" (JVal.jobj []))
  let lastUpdated := jGetD data "last_updated" (JVal.jstr "unknown")
  let updatedStr := formatLastUpdated lastUpdated
  let header :=
    "# 🤖 Renovate PRs Assistant Dashboard\n\n## Repository: " ++ repoName ++
    "\n\n### 📊 Summary\n\n- **Open Renovate PRs:** " ++ toString openPrsRaw.length ++
    "\n- **Total PRs Processed:** " ++ pyStrJ (jGetD stats "total_prs_processed" (JVal.jnum 0)) ++
    "\n- **Auto-approved PRs:** " ++ pyStrJ (jGetD stats "prs_auto_approved" (JVal.jnum 0)) ++
    "\n- **Dependency Fixes Applied:** " ++ pyStrJ (jGetD stats "dependency_fixes_applied" (JVal.jnum 0)) ++
    "\n- **Currently Blocked:** " ++ pyStrJ (jGetD stats "blocked_prs" (JVal.jnum 0)) ++
    "\n\n### 🔄 Open Renovate PRs"
  let prs ← openPrsRaw.mapM asObj
  let prSection :=
    if openPrsRaw.length ≠ 0 then String.join (prs.map prLine)
    else "\n\n✅ No open Renovate PRs found."
  let blocked := prs.filter (fun pr => jIsStr (jGetD pr "status" (JVal.jstr "unknown")) "blocked")
  let waiting := prs.filter (fun pr => jIsStr (jGetD pr "status" (JVal.jstr "unknown")) "waiting")
  let actions :=
    (if blocked.length ≠ 0 then
      "- **" ++ toString blocked.length ++ " PRs need attention** - review merge conflicts or failing checks\n"
    else "") ++
    (if waiting.length ≠ 0 then
      "- **" ++ toString waiting.length ++ " PRs waiting** for checks to complete\n"
    else "") ++
    (if openPrsRaw.length = 0 then
      "- 🎉 All Renovate PRs are processed! Repository is up to date.\n"
    else "")
  pure (header ++ prSection ++ reportMiddle ++ actions ++ "\n*Last updated: " ++ updatedStr ++ "*")

/-- generateDashboardBody models IssueStateManager._generate_dashboard_body
(issue_manager.py lines 371-397): the whole issue body is rebuilt from the
structured data alone — the human-readable report, the DASHBOARD_DATA block
holding the serialized data, and the footer. -/
def generateDashboardBody (data : List (String × JVal)) : Option String := do
  let report ← generateHumanReadableReport data
  let structured := dumpJ (JVal.jobj data)
  pure (report ++ "\n\n---\n\n<!-- DASHBOARD_DATA\n" ++ structured ++
    "\n-->\n\n<sub>This dashboard is automatically maintained by the Renovate PR Assistant. Last updated: " ++
    pyStrJ (jGetD data "last_updated" (JVal.jstr "unknown")) ++ "</sub>")

/-- JsonParseResult: the outcome of the external json.loads call on the
block content — a returned value, or a raised JSONDecodeError. -/
inductive JsonParseResult where
  | ok (v : JVal)
  | err

/-- extractDashboardData models
PollingStateTracker._extract_dashboard_data (state_tracker.py lines
606-639): take the issue body (None becomes the empty string), find the
DASHBOARD_DATA block, parse it, and return the parsed object; an absent
block, a parse failure (caught by the except) or a non-dict parse all yield
the empty dict.  The function is total: no outcome escapes as an
exception. -/
def extractDashboardData (parse : String → JsonParseResult)
    (body : Option String) : List (String × JVal) :=
  match findDashboardBlock (body.getD "") with
  | none => []
  | some content =>
    match parse content with
    | .ok (.jobj d) => d
    | .ok _ => []
    | .err => []

/-- extractPollingData models PollingStateTracker._extract_polling_data
(state_tracker.py lines 583-604): the polling_metadata entry of the
dashboard data, defaulting to the empty dict. -/
def extractPollingData (parse : String → JsonParseResult)
    (body : Option String) : JVal :=
  jGetD (extractDashboardData parse body) "polling_metadata" (JVal.jobj [])

/-- updateLastPollTimeBody models the body written by
PollingStateTracker.update_last_poll_time (state_tracker.py lines 210-254)
composed with PollingStateTracker._update_dashboard_with_polling_data
(lines 641-674): extract the stored data from the old body, ensure a
polling_metadata dict, update its last_poll_time and last_updated entries,
and regenerate the whole issue body from the merged data.  Result none
models an exception inside the try (caught; nothing is written). -/
def updateLastPollTimeBody (parse : String → JsonParseResult)
    (body : Option String) (pollTimeIso nowIso : String) : Option String := do
  let existing := extractDashboardData parse body
  let existing1 :=
    if (List.lookup "polling_metadata" existing).isSome then existing
    else dictSet existing "polling_metadata" (JVal.jobj [])
  let pm ← asObj (jGetD existing1 "polling_metadata" (JVal.jobj []))
  let pm2 := dictSet (dictSet pm "last_poll_time" (JVal.jstr pollTimeIso))
    "last_updated" (JVal.jstr nowIso)
  let merged := dictSet existing1 "polling_metadata" (JVal.jobj pm2)
  generateDashboardBody merged

/-! ## Dashboard issues (`issue_manager.py` lines 47-113, 529-592) -/

/-- Issue: the fields of a GitHub issue used by the dashboard manager. -/
structure Issue where
  number : Nat
  title : String
  created_at : Nat
  isOpen : Bool
  comments : List String
deriving DecidableEq, Repr

/-- issueLe is the sort key of _find_dashboard_issues
(issue_manager.py line 549): ascending creation date. -/
def issueLe (a b : Issue) : Prop := a.created_at ≤ b.created_at

instance : DecidableRel issueLe := fun a b => Nat.decLe a.created_at b.created_at

instance : IsTotal Issue issueLe := ⟨fun a b => Nat.le_total a.created_at b.created_at⟩

instance : IsTrans Issue issueLe := ⟨fun _ _ _ => Nat.le_trans⟩

/-- findDashboardIssues models IssueStateManager._find_dashboard_issues
(issue_manager.py lines 529-561): the open issues whose title equals the
dashboard title, sorted by creation date oldest first.  Python list.sort is
stable; it is modelled by the stable insertion sort. -/
def findDashboardIssues (title : String) (issues : List Issue) : List Issue :=
  List.insertionSort issueLe
    (issues.filter (fun i => i.isOpen && i.title == title))

/-- dupComment is the comment body posted on each duplicate dashboard issue
before closing it (issue_manager.py lines 574-579). -/
def dupComment : String :=
  "🤖 **Duplicate Dashboard Issue**\n\nThis issue is a duplicate of an existing Renovate PRs Assistant dashboard. Closing to prevent noise and maintain a single source of truth.\n\nThe primary dashboard issue will be kept active for status updates."

/-- closeIfDup models the effect of
IssueStateManager._close_duplicate_dashboard_issues (issue_manager.py lines
563-592) on one issue: a duplicate gets the explanatory comment and is
closed; every other issue is untouched. -/
def closeIfDup (dupNums : List Nat) (i : Issue) : Issue :=
  if i.number ∈ dupNums then
    { i with comments := i.comments ++ [dupComment], isOpen := false }
  else i

/-- getOrCreateDashboardIssue models
IssueStateManager.get_or_create_dashboard_issue (issue_manager.py lines
47-113) on a cache miss, as a transformation of the repository's issue
list.  When matching issues exist the oldest is returned and the later ones
are closed with an annotation; otherwise a fresh issue is created (its
number and timestamp are assigned by the external API and passed in). -/
def getOrCreateDashboardIssue (title : String) (freshNum freshTime : Nat)
    (issues : List Issue) : Issue × List Issue :=
  match findDashboardIssues title issues with
  | [] =>
    let created : Issue :=
      { number := freshNum, title := title, created_at := freshTime,
        isOpen := true, comments := [] }
    (created, issues ++ [created])
  | primary :: dups =>
    let dupNums := dups.map Issue.number
    (primary, issues.map (closeIfDup dupNums))

/-! ## RepositoryActivity (`polling/orchestrator.py` lines 22-85)

activity_score is a Python float combined with the literals 0.3 and 0.1 by
+, -, min and max; it is modelled over the exact rationals.  Every bound
proved here (0 ≤ score ≤ 1, interval membership) is robust to the rounding
of IEEE doubles because the comparisons in the source are against the
thresholds 0.2, 0.5, 0.8 and the score values stay well clear of the
representation granularity for the properties stated. -/

/-- RepositoryActivity (orchestrator.py lines 25-34), with poll timestamps
as abstract Nat instants. -/
structure RepositoryActivity where
  last_poll_time : Option Nat
  last_renovate_pr_count : Nat
  consecutive_empty_polls : Nat
  total_polls : Nat
  total_prs_found : Nat
  last_activity_detected : Option Nat
  current_interval_minutes : Nat
  activity_score : ℚ
deriving DecidableEq, Repr

/-- RepositoryActivity.init models RepositoryActivity.__init__
(orchestrator.py lines 25-34). -/
def RepositoryActivity.init : RepositoryActivity :=
  { last_poll_time := none
    last_renovate_pr_count := 0
    consecutive_empty_polls := 0
    total_polls := 0
    total_prs_found := 0
    last_activity_detected := none
    current_interval_minutes := 2
    activity_score := 0 }

/-- optimalInterval models the value assigned to current_interval_minutes
by RepositoryActivity._calculate_optimal_interval (orchestrator.py lines
57-77): a step function of activity_score and consecutive_empty_polls with
base_interval 2, max_interval 15, min_interval 1. -/
def optimalInterval (score : ℚ) (consecutiveEmpty : Nat) : Nat :=
  let base_interval : Nat := 2
  let max_interval : Nat := 15
  let min_interval : Nat := 1
  if score ≥ 8 / 10 then min_interval
  else if score ≥ 5 / 10 then base_interval
  else if score ≥ 2 / 10 then min 5 (base_interval * 2)
  else if consecutiveEmpty ≥ 5 then min max_interval (base_interval * 4)
  else min 10 (base_interval * 3)

/-- calculateOptimalInterval models
RepositoryActivity._calculate_optimal_interval (orchestrator.py lines
57-77): assign the interval determined by the activity pattern. -/
def calculateOptimalInterval (a : RepositoryActivity) : RepositoryActivity :=
  { a with current_interval_minutes :=
      optimalInterval a.activity_score a.consecutive_empty_polls }

/-- updateAfterPoll models RepositoryActivity.update_after_poll
(orchestrator.py lines 36-55). -/
def updateAfterPoll (a : RepositoryActivity) (renovate_pr_count : Nat)
    (poll_time : Nat) : RepositoryActivity :=
  let a := { a with last_poll_time := some poll_time,
                    total_polls := a.total_polls + 1 }
  let a :=
    if renovate_pr_count > 0 then
      let a := { a with total_prs_found := a.total_prs_found + renovate_pr_count,
                        consecutive_empty_polls := 0,
                        last_activity_detected := some poll_time }
      if renovate_pr_count > a.last_renovate_pr_count then
        { a with activity_score := min 1 (a.activity_score + 3 / 10) }
      else a
    else
      { a with consecutive_empty_polls := a.consecutive_empty_polls + 1,
               activity_score := max 0 (a.activity_score - 1 / 10) }
  calculateOptimalInterval { a with last_renovate_pr_count := renovate_pr_count }

/-- applyPolls folds a sequence of (prs_found, poll_time) cycles through
update_after_poll. -/
def applyPolls (a : RepositoryActivity) (polls : List (Nat × Nat)) :
    RepositoryActivity :=
  polls.foldl (fun s p => updateAfterPoll s p.1 p.2) a

/-- zeroPolls n a is the state after n consecutive polls that found zero
PRs (at poll time 0; timestamps do not influence score or interval). -/
def zeroPolls : Nat → RepositoryActivity → RepositoryActivity
  | 0, a => a
  | n + 1, a => zeroPolls n (updateAfterPoll a 0 0)

/-! ## PollingConfig and the orchestrator constructor (`config.py`,
`polling/orchestrator.py` lines 96-129) -/

/-- PollingConfig (config.py lines 52-88): the pydantic model with exactly
the fields it declares. -/
structure PollingConfig where
  enabled : Bool
  base_interval_seconds : Nat
  max_interval_seconds : Nat
  adaptive_polling : Bool
  activity_window_minutes : Nat
  high_activity_threshold : Nat
  low_activity_multiplier : ℚ
  api_usage_threshold : ℚ
  rate_limit_check_interval : Nat
  error_backoff_seconds : Nat
  max_consecutive_failures : Nat
  concurrent_repo_polling : Nat
deriving DecidableEq, Repr

/-- pollingConfigFieldNames: the attribute names the PollingConfig pydantic
model defines (config.py lines 52-88).  Access to any other attribute on an
instance raises AttributeError. -/
def pollingConfigFieldNames : List String :=
  ["enabled", "base_interval_seconds", "max_interval_seconds",
   "adaptive_polling", "activity_window_minutes", "high_activity_threshold",
   "low_activity_multiplier", "api_usage_threshold",
   "rate_limit_check_interval", "error_backoff_seconds",
   "max_consecutive_failures", "concurrent_repo_polling"]

/-- ConfigVal: the value of a PollingConfig attribute. -/
inductive ConfigVal where
  | bool (b : Bool)
  | nat (n : Nat)
  | rat (q : ℚ)
deriving DecidableEq, Repr

/-- pollingConfigGetattr models Python attribute access c.name on a
PollingConfig instance: the declared fields are returned, any other name
raises AttributeError (modelled as none). -/
def pollingConfigGetattr (c : PollingConfig) (name : String) : Option ConfigVal :=
  if name = "enabled" then some (ConfigVal.bool c.enabled)
  else if name = "base_interval_seconds" then some (ConfigVal.nat c.base_interval_seconds)
  else if name = "max_interval_seconds" then some (ConfigVal.nat c.max_interval_seconds)
  else if name = "adaptive_polling" then some (ConfigVal.bool c.adaptive_polling)
  else if name = "activity_window_minutes" then some (ConfigVal.nat c.activity_window_minutes)
  else if name = "high_activity_threshold" then some (ConfigVal.nat c.high_activity_threshold)
  else if name = "low_activity_multiplier" then some (ConfigVal.rat c.low_activity_multiplier)
  else if name = "api_usage_threshold" then some (ConfigVal.rat c.api_usage_threshold)
  else if name = "rate_limit_check_interval" then some (ConfigVal.nat c.rate_limit_check_interval)
  else if name = "error_backoff_seconds" then some (ConfigVal.nat c.error_backoff_seconds)
  else if name = "max_consecutive_failures" then some (ConfigVal.nat c.max_consecutive_failures)
  else if name = "concurrent_repo_polling" then some (ConfigVal.nat c.concurrent_repo_polling)
  else none

/-- SettingsPolling: the Settings fields consumed by the polling_config
property (config.py lines 197-210 and 348-357). -/
structure SettingsPolling where
  enable_polling : Bool
  polling_interval_seconds : Nat
  polling_max_interval_seconds : Nat
  polling_adaptive : Bool
  polling_concurrent_repos : Nat
deriving DecidableEq, Repr

/-- settingsPollingConfig models the Settings.polling_config property
(config.py lines 348-357): five fields forwarded, the rest left at the
PollingConfig declaration defaults. -/
def settingsPollingConfig (s : SettingsPolling) : PollingConfig :=
  { enabled := s.enable_polling
    base_interval_seconds := s.polling_interval_seconds
    max_interval_seconds := s.polling_max_interval_seconds
    adaptive_polling := s.polling_adaptive
    activity_window_minutes := 30
    high_activity_threshold := 10
    low_activity_multiplier := 3
    api_usage_threshold := 8 / 10
    rate_limit_check_interval := 60
    error_backoff_seconds := 300
    max_consecutive_failures := 5
    concurrent_repo_polling := s.polling_concurrent_repos }

/-- pollingOrchestratorInit models PollingOrchestrator.__init__
(orchestrator.py lines 96-129).  After storing the collaborators and the
config, line 127 reads settings.polling_config.enable_adaptive_intervals;
pydantic raises AttributeError for an attribute the model does not declare,
modelled as the error result. -/
def pollingOrchestratorInit (s : SettingsPolling) : Except String ConfigVal :=
  let config := settingsPollingConfig s
  match pollingConfigGetattr config "enable_adaptive_intervals" with
  | some v => Except.ok v
  | none => Except.error "AttributeError: enable_adaptive_intervals"

/-! ## The polling loop (`polling/orchestrator.py` lines 173-236) -/

/-- OrchestratorLoopState: the orchestrator attributes the main polling
loop reads or writes (is_running_flag, global_backoff_multiplier). -/
structure OrchestratorLoopState where
  is_running_flag : Bool
  global_backoff_multiplier : ℚ
deriving DecidableEq, Repr

/-- CycleEvent: what one iteration of the polling loop observes — a cycle
that runs to completion (with the rate-limit advisory it saw), or a
cycle-level exception reaching the except branch at lines 233-236. -/
inductive CycleEvent where
  | success (shouldSlowDown : Bool)
  | exception
deriving DecidableEq, Repr

/-- pollingCycleStep models one iteration of
PollingOrchestrator._polling_loop (orchestrator.py lines 175-236).  While
the flag is set, a completed cycle adjusts the global backoff multiplier
per the rate-limit advisory; a cycle-level exception is caught at line 233,
logged, and followed by a 60-second sleep — the loop state is otherwise
untouched, and nothing in the body writes is_running_flag. -/
def pollingCycleStep (st : OrchestratorLoopState) (e : CycleEvent) :
    OrchestratorLoopState :=
  if st.is_running_flag then
    match e with
    | CycleEvent.success slow =>
      if slow then
        { st with global_backoff_multiplier := min 3 (st.global_backoff_multiplier * (3 / 2)) }
      else if st.global_backoff_multiplier > 1 then
        { st with global_backoff_multiplier := max 1 (st.global_backoff_multiplier * (9 / 10)) }
      else st
    | CycleEvent.exception => st
  else st

/-- runPollingLoop folds a sequence of cycle events through the loop. -/
def runPollingLoop (st : OrchestratorLoopState) (es : List CycleEvent) :
    OrchestratorLoopState :=
  es.foldl pollingCycleStep st

/-- initialLoopState: the loop state right after start_polling sets the
flag (orchestrator.py lines 120, 128, 141). -/
def initialLoopState : OrchestratorLoopState :=
  { is_running_flag := true, global_backoff_multiplier := 1 }

/-! ## Rate limits (`polling/rate_limiter.py`) -/

/-- RateLimitStatus (rate_limiter.py lines 19-34), with reset_time as the
raw Unix timestamp. -/
structure RateLimitStatus where
  remaining : Nat
  limit : Nat
  reset_time : Nat
  usage_percentage : ℚ
  should_slow_down : Bool
deriving DecidableEq, Repr

/-- checkRateLimitsOk models the successful path of
RateLimitManager.check_rate_limits (rate_limiter.py lines 77-111):
usage_percentage is 1 - remaining/limit when limit is positive and 0
otherwise, and should_slow_down holds exactly when usage exceeds the
configured threshold.  Python float division is modelled by exact rational
division; threshold comparisons in every claim are far from the double
rounding granularity. -/
def checkRateLimitsOk (remaining limit reset : Nat) (threshold : ℚ) :
    RateLimitStatus :=
  let usage : ℚ := if 0 < limit then 1 - (remaining : ℚ) / (limit : ℚ) else 0
  { remaining := remaining
    limit := limit
    reset_time := reset
    usage_percentage := usage
    should_slow_down := decide (usage > threshold) }

/-- checkRateLimitsFailure models the except branch of check_rate_limits
(rate_limiter.py lines 113-123): the conservative default status. -/
def checkRateLimitsFailure (now : Nat) : RateLimitStatus :=
  { remaining := 100
    limit := 5000
    reset_time := now + 3600
    usage_percentage := 8 / 10
    should_slow_down := true }

/-- defaultApiUsageThreshold: the PollingConfig default for
api_usage_threshold (config.py lines 74-76). -/
def defaultApiUsageThreshold : ℚ := 8 / 10

/-! ## Theorems -/

/-- strData_inj: strings with equal character data are equal. -/
theorem strData_inj {a b : String} (h : a.data = b.data) : a = b := by
  cases a
  cases b
  exact congrArg String.mk h

/-- hashString_shape: the digest input of to_hash, right-nested at the
character-list level. -/
theorem hashString_shape (s : PRState) : (toHash s).data =
    s.state.data ++ (":".data ++ (s.updated_at.data ++ (":".data ++
      (s.head_sha.data ++ (":".data ++ (s.mergeable_state.data ++ (":".data ++
        (s.check_runs_conclusion.data ++ (":".data ++
          (pyBoolStr s.has_conflicts).data))))))))) := by
  simp [toHash, stateString, String.data_append, List.append_assoc]

/-- pyBoolStr_inj: the Python bool rendering is injective. -/
theorem pyBoolStr_inj {a b : Bool} (h : pyBoolStr a = pyBoolStr b) : a = b := by
  cases a <;> cases b
  · rfl
  · exact absurd h (by decide)
  · exact absurd h (by decide)
  · rfl

/-- toHash_eq_state: equal hashes with the five later fields equal force
equal state fields. -/
theorem toHash_eq_state {a b : PRState} (h : toHash a = toHash b)
    (h2 : a.updated_at = b.updated_at) (h3 : a.head_sha = b.head_sha)
    (h4 : a.mergeable_state = b.mergeable_state)
    (h5 : a.check_runs_conclusion = b.check_runs_conclusion)
    (h6 : a.has_conflicts = b.has_conflicts) : a.state = b.state := by
  have hd := congrArg String.data h
  rw [hashString_shape, hashString_shape, h2, h3, h4, h5, h6] at hd
  exact strData_inj (List.append_cancel_right hd)

/-- toHash_eq_updated_at: equal hashes with the other five fields equal
force equal updated_at fields. -/
theorem toHash_eq_updated_at {a b : PRState} (h : toHash a = toHash b)
    (h1 : a.state = b.state) (h3 : a.head_sha = b.head_sha)
    (h4 : a.mergeable_state = b.mergeable_state)
    (h5 : a.check_runs_conclusion = b.check_runs_conclusion)
    (h6 : a.has_conflicts = b.has_conflicts) : a.updated_at = b.updated_at := by
  have hd := congrArg String.data h
  rw [hashString_shape, hashString_shape, h1, h3, h4, h5, h6] at hd
  exact strData_inj (List.append_cancel_right
    (List.append_cancel_left (List.append_cancel_left hd)))

/-- toHash_eq_head_sha: equal hashes with the other five fields equal force
equal head_sha fields. -/
theorem toHash_eq_head_sha {a b : PRState} (h : toHash a = toHash b)
    (h1 : a.state = b.state) (h2 : a.updated_at = b.updated_at)
    (h4 : a.mergeable_state = b.mergeable_state)
    (h5 : a.check_runs_conclusion = b.check_runs_conclusion)
    (h6 : a.has_conflicts = b.has_conflicts) : a.head_sha = b.head_sha := by
  have hd := congrArg String.data h
  rw [hashString_shape, hashString_shape, h1, h2, h4, h5, h6] at hd
  exact strData_inj (List.append_cancel_right
    (List.append_cancel_left (List.append_cancel_left
      (List.append_cancel_left (List.append_cancel_left hd)))))

/-- toHash_eq_mergeable: equal hashes with the other five fields equal
force equal mergeable_state fields. -/
theorem toHash_eq_mergeable {a b : PRState} (h : toHash a = toHash b)
    (h1 : a.state = b.state) (h2 : a.updated_at = b.updated_at)
    (h3 : a.head_sha = b.head_sha)
    (h5 : a.check_runs_conclusion = b.check_runs_conclusion)
    (h6 : a.has_conflicts = b.has_conflicts) :
    a.mergeable_state = b.mergeable_state := by
  have hd := congrArg String.data h
  rw [hashString_shape, hashString_shape, h1, h2, h3, h5, h6] at hd
  exact strData_inj (List.append_cancel_right
    (List.append_cancel_left (List.append_cancel_left
      (List.append_cancel_left (List.append_cancel_left
        (List.append_cancel_left (List.append_cancel_left hd)))))))

/-- toHash_eq_check: equal hashes with the other five fields equal force
equal check_runs_conclusion fields. -/
theorem toHash_eq_check {a b : PRState} (h : toHash a = toHash b)
    (h1 : a.state = b.state) (h2 : a.updated_at = b.updated_at)
    (h3 : a.head_sha = b.head_sha) (h4 : a.mergeable_state = b.mergeable_state)
    (h6 : a.has_conflicts = b.has_conflicts) :
    a.check_runs_conclusion = b.check_runs_conclusion := by
  have hd := congrArg String.data h
  rw [hashString_shape, hashString_shape, h1, h2, h3, h4, h6] at hd
  exact strData_inj (List.append_cancel_right
    (List.append_cancel_left (List.append_cancel_left
      (List.append_cancel_left (List.append_cancel_left
        (List.append_cancel_left (List.append_cancel_left
          (List.append_cancel_left (List.append_cancel_left hd)))))))))

/-- toHash_eq_conflicts: equal hashes with the other five fields equal
force equal has_conflicts flags. -/
theorem toHash_eq_conflicts {a b : PRState} (h : toHash a = toHash b)
    (h1 : a.state = b.state) (h2 : a.updated_at = b.updated_at)
    (h3 : a.head_sha = b.head_sha) (h4 : a.mergeable_state = b.mergeable_state)
    (h5 : a.check_runs_conclusion = b.check_runs_conclusion) :
    a.has_conflicts = b.has_conflicts := by
  have hd := congrArg String.data h
  rw [hashString_shape, hashString_shape, h1, h2, h3, h4, h5] at hd
  exact pyBoolStr_inj (strData_inj
    (List.append_cancel_left (List.append_cancel_left
      (List.append_cancel_left (List.append_cancel_left
        (List.append_cancel_left (List.append_cancel_left
          (List.append_cancel_left (List.append_cancel_left
            (List.append_cancel_left (List.append_cancel_left hd)))))))))))

/-- prHashA: a concrete PRState used for the hash counterexamples. -/
def prHashA : PRState :=
  PRState.make "42" "open" "2024-01-01T00:00:00" "abc123" none none false

/-- prHashB: prHashA with only updated_at changed. -/
def prHashB : PRState :=
  PRState.make "42" "open" "2024-01-02T00:00:00" "abc123" none none false

/-- C2 counterexample: two PRStates that agree on state, head_sha,
mergeable_state, check_runs_conclusion and has_conflicts and differ only in
updated_at have different to_hash values — the digest input interpolates
updated_at, so a timestamp-only change does change the hash. -/
theorem to_hash_timestamp_counterexample :
    prHashA.state = prHashB.state ∧
    prHashA.head_sha = prHashB.head_sha ∧
    prHashA.mergeable_state = prHashB.mergeable_state ∧
    prHashA.check_runs_conclusion = prHashB.check_runs_conclusion ∧
    prHashA.has_conflicts = prHashB.has_conflicts ∧
    prHashA.updated_at ≠ prHashB.updated_at ∧
    toHash prHashA ≠ toHash prHashB := by
  decide

/-- C2 (amended): to_hash is sensitive to each of state, head_sha,
mergeable_state, check_runs_conclusion and has_conflicts — and also to
updated_at, which the digest input includes; pr_number (the only PRState
field outside the digest input) never affects the hash; timestamp
insensitivity is instead provided by is_actionable_change, which is false
whenever the five processing-relevant fields all agree. -/
theorem pr_state_hash_sensitivity :
    (∀ a b : PRState, a.state = b.state → a.head_sha = b.head_sha →
      a.mergeable_state = b.mergeable_state →
      a.check_runs_conclusion = b.check_runs_conclusion →
      a.has_conflicts = b.has_conflicts →
      a.updated_at ≠ b.updated_at → toHash a ≠ toHash b) ∧
    (∀ a b : PRState, a.updated_at = b.updated_at → a.head_sha = b.head_sha →
      a.mergeable_state = b.mergeable_state →
      a.check_runs_conclusion = b.check_runs_conclusion →
      a.has_conflicts = b.has_conflicts →
      a.state ≠ b.state → toHash a ≠ toHash b) ∧
    (∀ a b : PRState, a.state = b.state → a.updated_at = b.updated_at →
      a.mergeable_state = b.mergeable_state →
      a.check_runs_conclusion = b.check_runs_conclusion →
      a.has_conflicts = b.has_conflicts →
      a.head_sha ≠ b.head_sha → toHash a ≠ toHash b) ∧
    (∀ a b : PRState, a.state = b.state → a.updated_at = b.updated_at →
      a.head_sha = b.head_sha →
      a.check_runs_conclusion = b.check_runs_conclusion →
      a.has_conflicts = b.has_conflicts →
      a.mergeable_state ≠ b.mergeable_state → toHash a ≠ toHash b) ∧
    (∀ a b : PRState, a.state = b.state → a.updated_at = b.updated_at →
      a.head_sha = b.head_sha → a.mergeable_state = b.mergeable_state →
      a.has_conflicts = b.has_conflicts →
      a.check_runs_conclusion ≠ b.check_runs_conclusion →
      toHash a ≠ toHash b) ∧
    (∀ a b : PRState, a.state = b.state → a.updated_at = b.updated_at →
      a.head_sha = b.head_sha → a.mergeable_state = b.mergeable_state →
      a.check_runs_conclusion = b.check_runs_conclusion →
      a.has_conflicts ≠ b.has_conflicts → toHash a ≠ toHash b) ∧
    (∀ a : PRState, ∀ p : String,
      toHash { a with pr_number := p } = toHash a) ∧
    (∀ a b : PRState, a.state = b.state → a.head_sha = b.head_sha →
      a.mergeable_state = b.mergeable_state →
      a.check_runs_conclusion = b.check_runs_conclusion →
      a.has_conflicts = b.has_conflicts →
      isActionableChange a b = false) := by
  refine ⟨?_, ?_, ?_, ?_, ?_, ?_, ?_, ?_⟩
  · exact fun a b h1 h3 h4 h5 h6 hne h =>
      hne (toHash_eq_updated_at h h1 h3 h4 h5 h6)
  · exact fun a b h2 h3 h4 h5 h6 hne h =>
      hne (toHash_eq_state h h2 h3 h4 h5 h6)
  · exact fun a b h1 h2 h4 h5 h6 hne h =>
      hne (toHash_eq_head_sha h h1 h2 h4 h5 h6)
  · exact fun a b h1 h2 h3 h5 h6 hne h =>
      hne (toHash_eq_mergeable h h1 h2 h3 h5 h6)
  · exact fun a b h1 h2 h3 h4 h6 hne h =>
      hne (toHash_eq_check h h1 h2 h3 h4 h6)
  · exact fun a b h1 h2 h3 h4 h5 hne h =>
      hne (toHash_eq_conflicts h h1 h2 h3 h4 h5)
  · intro a p
    rfl
  · intro a b h1 h3 h4 h5 h6
    unfold isActionableChange
    by_cases hc : hasChanged a b = false
    · rw [if_pos hc]
    · rw [if_neg hc]
      simp [h1, h3, h4, h5, h6]

/-- Witness for C2 (amended): the updated_at-sensitivity clause applied to
the concrete pair, and the actionable-change clause applied to it as
well. -/
theorem pr_state_hash_sensitivity_witness :
    toHash prHashA ≠ toHash prHashB ∧
    isActionableChange prHashA prHashB = false :=
  ⟨pr_state_hash_sensitivity.1 prHashA prHashB rfl rfl rfl rfl rfl
      (by decide),
   pr_state_hash_sensitivity.2.2.2.2.2.2.2 prHashA prHashB rfl rfl rfl rfl rfl⟩

/-- isActionable_iff: is_actionable_change holds exactly when the hash
differs and at least one of the five processing-relevant fields differs. -/
theorem isActionable_iff (a b : PRState) :
    isActionableChange a b = true ↔
      (toHash a ≠ toHash b ∧ (a.state ≠ b.state ∨ a.head_sha ≠ b.head_sha ∨
        a.mergeable_state ≠ b.mergeable_state ∨
        a.check_runs_conclusion ≠ b.check_runs_conclusion ∨
        a.has_conflicts ≠ b.has_conflicts)) := by
  unfold isActionableChange
  by_cases hc : toHash a = toHash b
  · have hfc : hasChanged a b = false := by simp [hasChanged, hc]
    rw [if_pos hfc]
    simp [hc]
  · have hfc : ¬ (hasChanged a b = false) := by simp [hasChanged, hc]
    rw [if_neg hfc]
    simp [hc, or_assoc]

/-- storedHash: a stored-state dict holding prHashA under key 42. -/
def storedHash : List (String × PRState) := [("42", prHashA)]

/-- C3 counterexample: prHashB differs from the stored prHashA only in
updated_at, so its freshly computed hash differs from the stored one, yet
detect_pr_changes classifies it unchanged, not updated — the
classification uses is_actionable_change, not hash inequality. -/
theorem detect_updated_iff_hash_counterexample :
    toHash prHashB ≠ toHash prHashA ∧
    List.lookup prHashB.pr_number storedHash = some prHashA ∧
    detectPRChanges storedHash [prHashB]
      = [(prHashB, ChangeKind.unchanged)] := by
  decide

/-- C3 (amended): for every PR present in both the stored states and the
current list, detect_pr_changes classifies it updated iff its fresh hash
differs from the stored hash AND at least one of state, head_sha,
mergeable_state, check_runs_conclusion, has_conflicts differs (the
is_actionable_change test); otherwise it is classified unchanged. -/
theorem detect_updated_iff_actionable :
    (∀ stored current,
      detectPRChanges stored current = current.map (classifyPR stored)) ∧
    (∀ stored (c s : PRState), List.lookup c.pr_number stored = some s →
      ((classifyPR stored c = (c, ChangeKind.updated) ↔
        (toHash c ≠ toHash s ∧ (c.state ≠ s.state ∨ c.head_sha ≠ s.head_sha ∨
          c.mergeable_state ≠ s.mergeable_state ∨
          c.check_runs_conclusion ≠ s.check_runs_conclusion ∨
          c.has_conflicts ≠ s.has_conflicts))) ∧
       (classifyPR stored c = (c, ChangeKind.unchanged) ↔
        ¬(toHash c ≠ toHash s ∧ (c.state ≠ s.state ∨ c.head_sha ≠ s.head_sha ∨
          c.mergeable_state ≠ s.mergeable_state ∨
          c.check_runs_conclusion ≠ s.check_runs_conclusion ∨
          c.has_conflicts ≠ s.has_conflicts))))) := by
  refine ⟨fun stored current => rfl, fun stored c s hl => ?_⟩
  have key := isActionable_iff c s
  by_cases hA : isActionableChange c s = true
  · have hr := key.mp hA
    constructor
    · unfold classifyPR
      rw [hl]
      dsimp only
      rw [if_pos hA]
      simp only [Prod.mk.injEq, true_and]
      simp [hr]
    · unfold classifyPR
      rw [hl]
      dsimp only
      rw [if_pos hA]
      simp only [Prod.mk.injEq, true_and]
      simp [hr]
  · have hr := mt key.mpr hA
    constructor
    · unfold classifyPR
      rw [hl]
      dsimp only
      rw [if_neg hA]
      simp only [Prod.mk.injEq, true_and]
      simp [hr]
    · unfold classifyPR
      rw [hl]
      dsimp only
      rw [if_neg hA]
      simp only [Prod.mk.injEq, true_and]
      simp [hr]

/-- Witness for C3 (amended): the unchanged clause applied to the concrete
timestamp-only change. -/
theorem detect_updated_iff_actionable_witness :
    classifyPR storedHash prHashB = (prHashB, ChangeKind.unchanged) :=
  ((detect_updated_iff_actionable.2 storedHash prHashB prHashA
    (by decide)).2).mpr (by decide)

/-- score_update_growth: when more PRs are found than last time, the score
rises by 0.3 capped at 1. -/
theorem score_update_growth (a : RepositoryActivity) (n t : Nat)
    (hgt : a.last_renovate_pr_count < n) :
    (updateAfterPoll a n t).activity_score
      = min 1 (a.activity_score + 3 / 10) := by
  have hn : 0 < n := Nat.lt_of_le_of_lt (Nat.zero_le _) hgt
  simp [updateAfterPoll, calculateOptimalInterval, hn, hgt]

/-- score_update_flat: when PRs are found but no more than last time, the
score is unchanged. -/
theorem score_update_flat (a : RepositoryActivity) (n t : Nat)
    (hn : 0 < n) (hle : ¬ a.last_renovate_pr_count < n) :
    (updateAfterPoll a n t).activity_score = a.activity_score := by
  simp [updateAfterPoll, calculateOptimalInterval, hn, hle]

/-- score_update_zero: an empty poll decays the score by 0.1 floored at 0. -/
theorem score_update_zero (a : RepositoryActivity) (t : Nat) :
    (updateAfterPoll a 0 t).activity_score
      = max 0 (a.activity_score - 1 / 10) := by
  simp [updateAfterPoll, calculateOptimalInterval]

/-- last_count_update: update_after_poll stores the poll's PR count. -/
theorem last_count_update (a : RepositoryActivity) (n t : Nat) :
    (updateAfterPoll a n t).last_renovate_pr_count = n := by
  by_cases hn : 0 < n
  · by_cases hgt : a.last_renovate_pr_count < n <;>
      simp [updateAfterPoll, calculateOptimalInterval, hn, hgt]
  · simp [updateAfterPoll, calculateOptimalInterval, hn]

/-- consecutive_update_zero: an empty poll increments the empty-poll
counter. -/
theorem consecutive_update_zero (a : RepositoryActivity) (t : Nat) :
    (updateAfterPoll a 0 t).consecutive_empty_polls
      = a.consecutive_empty_polls + 1 := by
  simp [updateAfterPoll, calculateOptimalInterval]

/-- interval_update_zero: after an empty poll from a zero score, the
interval is 8 once at least 5 consecutive empty polls accumulated and 6
before that. -/
theorem interval_update_zero (a : RepositoryActivity) (t : Nat)
    (h0 : a.activity_score = 0) :
    (updateAfterPoll a 0 t).current_interval_minutes
      = if 5 ≤ a.consecutive_empty_polls + 1 then 8 else 6 := by
  have hs : max (0 : ℚ) (a.activity_score - 1 / 10) = 0 := by
    rw [h0]
    norm_num
  have key : ∀ c : Nat, optimalInterval 0 c = if 5 ≤ c then 8 else 6 := by
    intro c
    unfold optimalInterval
    norm_num
  have hstep : (updateAfterPoll a 0 t).current_interval_minutes
      = optimalInterval (max 0 (a.activity_score - 1 / 10))
          (a.consecutive_empty_polls + 1) := by
    simp [updateAfterPoll, calculateOptimalInterval]
  rw [hstep, hs, key]

/-- score_bounds_step: update_after_poll keeps the score within [0, 1]. -/
theorem score_bounds_step (a : RepositoryActivity) (n t : Nat)
    (h0 : 0 ≤ a.activity_score) (h1 : a.activity_score ≤ 1) :
    0 ≤ (updateAfterPoll a n t).activity_score ∧
      (updateAfterPoll a n t).activity_score ≤ 1 := by
  by_cases hn : 0 < n
  · by_cases hgt : a.last_renovate_pr_count < n
    · rw [score_update_growth a n t hgt]
      constructor
      · exact le_min (by norm_num) (by linarith)
      · exact min_le_left 1 _
    · rw [score_update_flat a n t hn hgt]
      exact ⟨h0, h1⟩
  · have hz : n = 0 := Nat.eq_zero_of_not_pos hn
    subst hz
    rw [score_update_zero a t]
    constructor
    · exact le_max_left 0 _
    · exact max_le (by norm_num) (by linarith)

/-- score_step_mono: a poll finding strictly more PRs than the previous one
never lowers the score (given the score invariant). -/
theorem score_step_mono (a : RepositoryActivity) (n t : Nat)
    (h1 : a.activity_score ≤ 1) (hgt : a.last_renovate_pr_count < n) :
    a.activity_score ≤ (updateAfterPoll a n t).activity_score := by
  rw [score_update_growth a n t hgt]
  exact le_min h1 (by linarith)

/-- applyPolls_bounds: the score invariant 0 ≤ score ≤ 1 is preserved by
any poll sequence. -/
theorem applyPolls_bounds : ∀ (polls : List (Nat × Nat))
    (a : RepositoryActivity), 0 ≤ a.activity_score → a.activity_score ≤ 1 →
    0 ≤ (applyPolls a polls).activity_score ∧
      (applyPolls a polls).activity_score ≤ 1 := by
  intro polls
  induction polls with
  | nil => exact fun a h0 h1 => ⟨h0, h1⟩
  | cons p tl ih =>
    intro a h0 h1
    have hb := score_bounds_step a p.1 p.2 h0 h1
    exact ih (updateAfterPoll a p.1 p.2) hb.1 hb.2

/-- applyPolls_last_count: after a poll sequence the stored count is the
last prs_found value (or the prior one for an empty sequence). -/
theorem applyPolls_last_count : ∀ (polls : List (Nat × Nat))
    (a : RepositoryActivity),
    (applyPolls a polls).last_renovate_pr_count
      = (polls.map Prod.fst).getLastD a.last_renovate_pr_count := by
  intro polls
  induction polls with
  | nil => exact fun a => rfl
  | cons p tl ih =>
    intro a
    show (applyPolls (updateAfterPoll a p.1 p.2) tl).last_renovate_pr_count = _
    rw [ih, last_count_update, List.map_cons, List.getLastD_cons]

/-- chain'_last_lt: in a strictly increasing chain l ++ [x], the last
element of l is below x. -/
theorem chain'_last_lt : ∀ (l : List Nat) (d x : Nat), l ≠ [] →
    List.Chain' (· < ·) (l ++ [x]) → l.getLastD d < x := by
  intro l
  induction l with
  | nil => intro d x h; exact absurd rfl h
  | cons a tl ih =>
    intro d x _ hch
    cases tl with
    | nil =>
      simp only [List.cons_append, List.nil_append, List.chain'_cons,
        List.getLastD_cons, List.getLastD_nil] at hch ⊢
      exact hch.1
    | cons b t =>
      have htail : List.Chain' (· < ·) ((b :: t) ++ [x]) :=
        (List.chain'_cons.mp hch).2
      simpa [List.getLastD_cons] using ih a x (by simp) htail

/-- zeroPolls_props: along an all-zero poll sequence from a state with zero
score and zero last count, the score stays 0, the empty-poll counter
accumulates, and from the first empty poll on the interval is 8 once 5
consecutive empty polls are reached and 6 before. -/
theorem zeroPolls_props : ∀ (n : Nat) (a : RepositoryActivity),
    a.activity_score = 0 → a.last_renovate_pr_count = 0 →
    (zeroPolls n a).activity_score = 0 ∧
    (zeroPolls n a).last_renovate_pr_count = 0 ∧
    (zeroPolls n a).consecutive_empty_polls
      = a.consecutive_empty_polls + n ∧
    (1 ≤ n → (zeroPolls n a).current_interval_minutes
      = if 5 ≤ a.consecutive_empty_polls + n then 8 else 6) := by
  intro n
  induction n with
  | zero =>
    intro a h0 hl
    exact ⟨h0, hl, rfl, fun h => absurd h (by norm_num)⟩
  | succ m ih =>
    intro a h0 hl
    have hbscore : (updateAfterPoll a 0 0).activity_score = 0 := by
      rw [score_update_zero, h0]
      norm_num
    have hblast : (updateAfterPoll a 0 0).last_renovate_pr_count = 0 :=
      last_count_update a 0 0
    have hbcons : (updateAfterPoll a 0 0).consecutive_empty_polls
        = a.consecutive_empty_polls + 1 := consecutive_update_zero a 0
    have hrec := ih (updateAfterPoll a 0 0) hbscore hblast
    refine ⟨hrec.1, hrec.2.1, ?_, ?_⟩
    · show (zeroPolls m (updateAfterPoll a 0 0)).consecutive_empty_polls = _
      rw [hrec.2.2.1, hbcons]
      omega
    · intro _
      cases m with
      | zero =>
        show (updateAfterPoll a 0 0).current_interval_minutes = _
        rw [interval_update_zero a 0 h0]
      | succ k =>
        show (zeroPolls (k + 1) (updateAfterPoll a 0 0)).current_interval_minutes = _
        rw [hrec.2.2.2 (by omega), hbcons]
        have harith : a.consecutive_empty_polls + 1 + (k + 1)
            = a.consecutive_empty_polls + (k + 1 + 1) := by omega
        rw [harith]

/-- C6 counterexample: from a fresh RepositoryActivity, an all-zero
sequence of polls pins current_interval_minutes at 8 from the fifth empty
poll on and never produces the configured maximum 15 — the slowest branch
assigns min(max_interval, base_interval * 4) = 8, so the interval never
reaches its configured maximum. -/
theorem activity_interval_counterexample :
    (zeroPolls 5 RepositoryActivity.init).current_interval_minutes = 8 ∧
    (∀ n, (zeroPolls n RepositoryActivity.init).current_interval_minutes ≠ 15) := by
  have h := fun n => zeroPolls_props n RepositoryActivity.init rfl rfl
  constructor
  · rw [(h 5).2.2.2 (by norm_num)]
    norm_num [RepositoryActivity.init]
  · intro n
    cases n with
    | zero =>
      show RepositoryActivity.init.current_interval_minutes ≠ 15
      norm_num [RepositoryActivity.init]
    | succ m =>
      rw [(h (m + 1)).2.2.2 (by omega)]
      split <;> norm_num

/-- C6 (amended): the score stays within [0, 1], rises by 0.3 capped at 1
on growth and falls by 0.1 floored at 0 on an empty poll; along any
strictly increasing prs_found sequence from a fresh tracker the score
never decreases at any step; and an all-zero sequence eventually drives
current_interval_minutes to 8 = min(max_interval 15, 4 x base_interval 2)
— the slowest interval the code can assign — and never beyond it (in
particular never beyond the configured maximum 15). -/
theorem activity_monotonicity_and_interval :
    (∀ (a : RepositoryActivity) (n t : Nat), 0 ≤ a.activity_score →
      a.activity_score ≤ 1 →
      0 ≤ (updateAfterPoll a n t).activity_score ∧
        (updateAfterPoll a n t).activity_score ≤ 1) ∧
    (∀ (a : RepositoryActivity) (n t : Nat), a.last_renovate_pr_count < n →
      (updateAfterPoll a n t).activity_score
        = min 1 (a.activity_score + 3 / 10)) ∧
    (∀ (a : RepositoryActivity) (t : Nat),
      (updateAfterPoll a 0 t).activity_score
        = max 0 (a.activity_score - 1 / 10)) ∧
    (∀ (polls : List (Nat × Nat)) (p : Nat × Nat),
      List.Chain' (· < ·) ((polls ++ [p]).map Prod.fst) →
      (applyPolls RepositoryActivity.init polls).activity_score ≤
        (applyPolls RepositoryActivity.init (polls ++ [p])).activity_score) ∧
    (∀ n, 5 ≤ n →
      (zeroPolls n RepositoryActivity.init).current_interval_minutes = 8) ∧
    (∀ n, (zeroPolls n RepositoryActivity.init).current_interval_minutes ≤ 8) ∧
    8 = min 15 (2 * 4) := by
  refine ⟨score_bounds_step, score_update_growth, score_update_zero,
    ?_, ?_, ?_, rfl⟩
  · intro polls p hch
    have hsplit : applyPolls RepositoryActivity.init (polls ++ [p])
        = updateAfterPoll (applyPolls RepositoryActivity.init polls) p.1 p.2 := by
      simp [applyPolls, List.foldl_append]
    have hb := applyPolls_bounds polls RepositoryActivity.init
      (by norm_num [RepositoryActivity.init]) (by norm_num [RepositoryActivity.init])
    cases polls with
    | nil =>
      cases hp : p.1 with
      | zero =>
        rw [hsplit]
        show RepositoryActivity.init.activity_score ≤ _
        rw [hp, score_update_zero]
        norm_num [RepositoryActivity.init]
      | succ k =>
        rw [hsplit]
        refine score_step_mono _ _ _ hb.2 ?_
        show (applyPolls RepositoryActivity.init []).last_renovate_pr_count < p.1
        rw [hp]
        show RepositoryActivity.init.last_renovate_pr_count < k + 1
        norm_num [RepositoryActivity.init]
    | cons q rest =>
      have hlast := applyPolls_last_count (q :: rest) RepositoryActivity.init
      have hlt : ((q :: rest).map Prod.fst).getLastD
          RepositoryActivity.init.last_renovate_pr_count < p.1 := by
        apply chain'_last_lt _ _ p.1 (by simp)
        simpa [List.map_append] using hch
      rw [hsplit]
      exact score_step_mono _ _ _ hb.2 (by rw [hlast]; exact hlt)
  · intro n hn
    have h := zeroPolls_props n RepositoryActivity.init rfl rfl
    rw [h.2.2.2 (by omega)]
    have : 5 ≤ RepositoryActivity.init.consecutive_empty_polls + n := by
      show 5 ≤ 0 + n
      omega
    rw [if_pos this]
  · intro n
    have h := zeroPolls_props n RepositoryActivity.init rfl rfl
    cases n with
    | zero =>
      show RepositoryActivity.init.current_interval_minutes ≤ 8
      norm_num [RepositoryActivity.init]
    | succ m =>
      rw [h.2.2.2 (by omega)]
      split <;> norm_num

/-- c4OldBody: a dashboard document carrying operator prose before and
after its DASHBOARD_DATA block (the block holds an empty JSON object). -/
def c4OldBody : String :=
  "# Dashboard\n\nOPERATOR NOTE: keep this text\n\n<!-- DASHBOARD_DATA\n\x7b\x7d\n-->\n\nTrailing prose kept by humans"

/-- c4Parse: the JSON library outcome used in the concrete runs — the
block content of c4OldBody parses to the empty object, anything else
raises JSONDecodeError. -/
def c4Parse : String → JsonParseResult :=
  fun s =>
    if s = "\x7b\x7d" then JsonParseResult.ok (JVal.jobj [])
    else JsonParseResult.err

/-- c4Merged: the merged structured data that update_last_poll_time writes
back for c4OldBody at poll time t1, now t2. -/
def c4Merged : List (String × JVal) :=
  [("polling_metadata", JVal.jobj
    [("last_poll_time", JVal.jstr "t1"), ("last_updated", JVal.jstr "t2")])]

/-- C4 counterexample: updating the last-poll time on a dashboard document
whose prose outside the delimited block reads OPERATOR NOTE ... and
Trailing prose ... produces a document that no longer contains either —
the write regenerates the whole body from the structured data instead of
preserving content outside the block byte-for-byte. -/
theorem dashboard_write_frame_counterexample :
    containsSub "OPERATOR NOTE" c4OldBody = true ∧
    containsSub "Trailing prose" c4OldBody = true ∧
    (updateLastPollTimeBody c4Parse (some c4OldBody) "t1" "t2").map
        (fun nb => (containsSub "OPERATOR NOTE" nb,
          containsSub "Trailing prose" nb))
      = some (false, false) := by
  set_option maxRecDepth 10000 in decide

/-- C4 (amended): a write through the State Store Adapter does not
preserve content outside the delimited block; it regenerates the whole
document from the merged structured data alone — two old documents with
the same extracted block data produce identical new documents, and the new
document from the concrete run carries the merged data in its block while
(per the counterexample) the old prose is gone. -/
theorem dashboard_write_regenerated_from_data :
    (∀ (parse : String → JsonParseResult) (b1 b2 : Option String)
      (t now : String),
      extractDashboardData parse b1 = extractDashboardData parse b2 →
      updateLastPollTimeBody parse b1 t now
        = updateLastPollTimeBody parse b2 t now) ∧
    (updateLastPollTimeBody c4Parse (some c4OldBody) "t1" "t2").map
        findDashboardBlock
      = some (some (dumpJ (JVal.jobj c4Merged))) := by
  constructor
  · intro parse b1 b2 t now h
    unfold updateLastPollTimeBody
    rw [h]
  · set_option maxRecDepth 10000 in decide

/-- Witness for C4 (amended): two different old documents, neither holding
a block, produce the same written document. -/
theorem dashboard_write_regenerated_from_data_witness :
    updateLastPollTimeBody c4Parse none "t1" "t2"
      = updateLastPollTimeBody c4Parse (some "no block") "t1" "t2" :=
  dashboard_write_regenerated_from_data.1 c4Parse none (some "no block")
    "t1" "t2" rfl

/-- C7: with at least one open dashboard-titled issue present and a unique
strictly oldest one among them, one get_or_create operation returns that
oldest issue, leaves it open and untouched, and closes every other open
issue with the same title after posting the duplicate-notice comment on
it.  Issue numbers are assumed distinct, as GitHub guarantees. -/
theorem dashboard_duplicate_handling
    (title : String) (freshNum freshTime : Nat) (issues : List Issue)
    (p : Issue)
    (hnodup : (issues.map Issue.number).Nodup)
    (hmem : p ∈ issues) (hopen : p.isOpen = true) (htitle : p.title = title)
    (hmin : ∀ i ∈ issues, i.title = title → i.isOpen = true →
      i.number ≠ p.number → p.created_at < i.created_at) :
    (getOrCreateDashboardIssue title freshNum freshTime issues).1 = p ∧
    p ∈ (getOrCreateDashboardIssue title freshNum freshTime issues).2 ∧
    (∀ i ∈ issues, i.title = title → i.isOpen = true →
      i.number ≠ p.number →
      ∃ j ∈ (getOrCreateDashboardIssue title freshNum freshTime issues).2,
        j.number = i.number ∧ j.isOpen = false ∧ dupComment ∈ j.comments) := by
  have hpfl : p ∈ issues.filter (fun i => i.isOpen && i.title == title) := by
    rw [List.mem_filter]
    exact ⟨hmem, by simp [hopen, htitle]⟩
  have hperm : List.Perm (findDashboardIssues title issues)
      (issues.filter (fun i => i.isOpen && i.title == title)) :=
    List.perm_insertionSort issueLe _
  have hsorted : List.Sorted issueLe (findDashboardIssues title issues) :=
    List.sorted_insertionSort issueLe _
  have hpf : p ∈ findDashboardIssues title issues := hperm.mem_iff.mpr hpfl
  obtain ⟨primary, dups, hcons⟩ :
      ∃ primary dups, findDashboardIssues title issues = primary :: dups := by
    cases hc : findDashboardIssues title issues with
    | nil =>
      rw [hc] at hpf
      exact absurd hpf (List.not_mem_nil p)
    | cons x xs => exact ⟨x, xs, rfl⟩
  have hprimf : primary ∈ findDashboardIssues title issues := by
    rw [hcons]
    exact List.mem_cons_self _ _
  have hprimfl := hperm.mem_iff.mp hprimf
  have hprimmem : primary ∈ issues := (List.mem_filter.mp hprimfl).1
  have hprimprops := (List.mem_filter.mp hprimfl).2
  have hprimopen : primary.isOpen = true := by
    simp only [Bool.and_eq_true, beq_iff_eq] at hprimprops
    exact hprimprops.1
  have hprimtitle : primary.title = title := by
    simp only [Bool.and_eq_true, beq_iff_eq] at hprimprops
    exact hprimprops.2
  have hprimeq : primary = p := by
    rw [hcons] at hpf
    rcases List.mem_cons.mp hpf with heq | hmemtl
    · exact heq.symm
    · have hle : issueLe primary p :=
        List.rel_of_sorted_cons (hcons ▸ hsorted) p hmemtl
      by_cases hn : primary.number = p.number
      · exact List.inj_on_of_nodup_map hnodup hprimmem hmem hn
      · have hlt := hmin primary hprimmem hprimtitle hprimopen hn
        exact absurd hlt (not_lt.mpr hle)
  have hflnd : ((issues.filter
      (fun i => i.isOpen && i.title == title)).map Issue.number).Nodup := by
    have hsub : List.Sublist
        (issues.filter (fun i => i.isOpen && i.title == title)) issues :=
      List.filter_sublist issues
    exact hnodup.sublist (hsub.map Issue.number)
  have hfnd : ((findDashboardIssues title issues).map Issue.number).Nodup :=
    ((hperm.map Issue.number).nodup_iff).mpr hflnd
  have hheadnotin : primary.number ∉ dups.map Issue.number := by
    rw [hcons, List.map_cons, List.nodup_cons] at hfnd
    exact hfnd.1
  have hop : getOrCreateDashboardIssue title freshNum freshTime issues
      = (primary, issues.map (closeIfDup (dups.map Issue.number))) := by
    unfold getOrCreateDashboardIssue
    rw [hcons]
  refine ⟨?_, ?_, ?_⟩
  · rw [hop]
    exact hprimeq
  · rw [hop]
    refine List.mem_map.mpr ⟨p, hmem, ?_⟩
    unfold closeIfDup
    rw [if_neg]
    rw [← hprimeq]
    exact hheadnotin
  · intro i himem hit hio hin
    have hifl : i ∈ issues.filter (fun i => i.isOpen && i.title == title) := by
      rw [List.mem_filter]
      exact ⟨himem, by simp [hio, hit]⟩
    have hif : i ∈ findDashboardIssues title issues := hperm.mem_iff.mpr hifl
    rw [hcons] at hif
    have hidups : i ∈ dups := by
      rcases List.mem_cons.mp hif with heq | hd
      · exact absurd (heq ▸ rfl : i.number = primary.number)
          (by rw [hprimeq]; exact hin)
      · exact hd
    have hinum : i.number ∈ dups.map Issue.number :=
      List.mem_map_of_mem Issue.number hidups
    rw [hop]
    refine ⟨closeIfDup (dups.map Issue.number) i,
      List.mem_map_of_mem _ himem, ?_⟩
    unfold closeIfDup
    rw [if_pos hinum]
    exact ⟨rfl, rfl, by simp⟩

/-- dashboardTitleW: the default dashboard title (config.py line 157). -/
def dashboardTitleW : String := "Renovate PRs Assistant Dashboard"

/-- issueW1: a concrete open dashboard issue created at time 10. -/
def issueW1 : Issue :=
  { number := 1, title := dashboardTitleW, created_at := 10,
    isOpen := true, comments := [] }

/-- issueW2: a concrete duplicate dashboard issue created at time 20. -/
def issueW2 : Issue :=
  { number := 2, title := dashboardTitleW, created_at := 20,
    isOpen := true, comments := [] }

/-- Witness for C7: two identically titled open issues with T1 < T2; the
operation returns the older one. -/
theorem dashboard_duplicate_handling_witness :
    (getOrCreateDashboardIssue dashboardTitleW 99 0 [issueW1, issueW2]).1
      = issueW1 :=
  (dashboard_duplicate_handling dashboardTitleW 99 0 [issueW1, issueW2]
    issueW1 (by decide) (by decide) rfl rfl (by decide)).1

/-- Witness for C6 (amended): the growth clause, the step-monotonicity
clause at a concrete strictly increasing trace, and the zero-sequence
clause at n = 5. -/
theorem activity_monotonicity_and_interval_witness :
    (updateAfterPoll RepositoryActivity.init 1 0).activity_score
        = min 1 (RepositoryActivity.init.activity_score + 3 / 10) ∧
    (applyPolls RepositoryActivity.init [(1, 0)]).activity_score ≤
      (applyPolls RepositoryActivity.init [(1, 0), (2, 0)]).activity_score ∧
    (zeroPolls 5 RepositoryActivity.init).current_interval_minutes = 8 :=
  ⟨activity_monotonicity_and_interval.2.1 RepositoryActivity.init 1 0
      (by norm_num [RepositoryActivity.init]),
   activity_monotonicity_and_interval.2.2.2.1 [(1, 0)] (2, 0) (by simp),
   activity_monotonicity_and_interval.2.2.2.2.1 5 (by norm_num)⟩

/-- C9: for every successful rate-limit query with positive limit,
usage_percentage is 1 - remaining/limit and should_slow_down holds exactly
when the usage exceeds the threshold; with the default 0.8 threshold,
remaining=50 of limit=5000 gives usage 0.99 and a slow-down advisory, and
remaining=4900 gives no advisory. -/
theorem rate_limit_advisory_correct :
    (∀ remaining limit reset : Nat, ∀ threshold : ℚ, 0 < limit →
      (checkRateLimitsOk remaining limit reset threshold).usage_percentage
          = 1 - (remaining : ℚ) / (limit : ℚ) ∧
      ((checkRateLimitsOk remaining limit reset threshold).should_slow_down = true ↔
        1 - (remaining : ℚ) / (limit : ℚ) > threshold)) ∧
    (checkRateLimitsOk 50 5000 0 defaultApiUsageThreshold).usage_percentage = 99 / 100 ∧
    (checkRateLimitsOk 50 5000 0 defaultApiUsageThreshold).should_slow_down = true ∧
    (checkRateLimitsOk 4900 5000 0 defaultApiUsageThreshold).should_slow_down = false := by
  refine ⟨fun remaining limit reset threshold hpos => ?_, ?_, ?_, ?_⟩
  · constructor
    · simp [checkRateLimitsOk, hpos]
    · simp [checkRateLimitsOk, hpos]
  · norm_num [checkRateLimitsOk, defaultApiUsageThreshold]
  · norm_num [checkRateLimitsOk, defaultApiUsageThreshold]
  · norm_num [checkRateLimitsOk, defaultApiUsageThreshold]

/-- Witness for C9: the general statement applied at remaining=50,
limit=5000 with the positivity hypothesis discharged. -/
theorem rate_limit_advisory_correct_witness :
    (checkRateLimitsOk 50 5000 0 defaultApiUsageThreshold).usage_percentage
        = 1 - (50 : ℚ) / (5000 : ℚ) :=
  (rate_limit_advisory_correct.1 50 5000 0 defaultApiUsageThreshold (by norm_num)).1

/-- C10: for every Settings value, the PollingOrchestrator constructor hits
an AttributeError: it reads settings.polling_config.enable_adaptive_intervals
but the PollingConfig model declares no such field (nor interval_minutes nor
max_concurrent_repositories, which the loop reads later). -/
theorem orchestrator_init_attribute_error :
    (∀ s : SettingsPolling,
      pollingOrchestratorInit s
        = Except.error "AttributeError: enable_adaptive_intervals") ∧
    (∀ c : PollingConfig, pollingConfigGetattr c "enable_adaptive_intervals" = none) ∧
    "enable_adaptive_intervals" ∉ pollingConfigFieldNames ∧
    "interval_minutes" ∉ pollingConfigFieldNames ∧
    "max_concurrent_repositories" ∉ pollingConfigFieldNames := by
  refine ⟨fun s => ?_, fun c => ?_, by decide, by decide, by decide⟩
  · rfl
  · rfl

/-- C1 (code evaluation): no sequence of polling-cycle outcomes ever clears
is_running_flag — the loop body has no consecutive-failure counter and never
transitions to Stopped; in particular, after 3 (or 5, the configured
default ceiling) consecutive cycle-level exceptions from a freshly started
orchestrator the loop is still running, contrary to the specified fail-safe
halt. -/
theorem polling_loop_never_stops_on_failures :
    (∀ st es, (runPollingLoop st es).is_running_flag = st.is_running_flag) ∧
    (runPollingLoop initialLoopState
      (List.replicate 3 CycleEvent.exception)).is_running_flag = true ∧
    (runPollingLoop initialLoopState
      (List.replicate 5 CycleEvent.exception)).is_running_flag = true := by
  have step : ∀ st e, (pollingCycleStep st e).is_running_flag = st.is_running_flag := by
    intro st e
    cases e with
    | success slow =>
      unfold pollingCycleStep
      by_cases h : st.is_running_flag = true
      · rw [if_pos h]
        cases slow
        · dsimp only
          rw [if_neg (by decide : ¬((false : Bool) = true))]
          by_cases h2 : st.global_backoff_multiplier > 1
          · rw [if_pos h2]
          · rw [if_neg h2]
        · rfl
      · rw [if_neg h]
    | exception =>
      unfold pollingCycleStep
      by_cases h : st.is_running_flag = true
      · rw [if_pos h]
      · rw [if_neg h]
  have main : ∀ es st, (runPollingLoop st es).is_running_flag = st.is_running_flag := by
    intro es
    induction es with
    | nil => intro st; rfl
    | cons e tl ih =>
      intro st
      show (runPollingLoop (pollingCycleStep st e) tl).is_running_flag = _
      rw [ih, step]
  exact ⟨fun st es => main es st, by rw [main]; rfl, by rw [main]; rfl⟩

/-- C5: detect_pr_changes returns exactly one classification per current PR
in order (no silent omissions), classifies every PR absent from the stored
states as new, classifies all PRs as new when the stored states are empty
(the result of a failed previous-state read), and its own failure fallback
also returns every PR as new. -/
theorem detect_pr_changes_new_coverage :
    (∀ stored current, (detectPRChanges stored current).map Prod.fst = current) ∧
    (∀ stored current c, c ∈ current → List.lookup c.pr_number stored = none →
      (c, ChangeKind.new) ∈ detectPRChanges stored current) ∧
    (∀ current, detectPRChanges [] current
      = current.map (fun c => (c, ChangeKind.new))) ∧
    (∀ current, detectPRChangesOnError current
      = current.map (fun c => (c, ChangeKind.new))) := by
  have fst_classify : ∀ stored c, (classifyPR stored c).1 = c := by
    intro stored c
    unfold classifyPR
    cases List.lookup c.pr_number stored with
    | none => rfl
    | some s =>
      by_cases h : isActionableChange c s = true
      · simp [h]
      · simp [h]
  refine ⟨fun stored current => ?_, fun stored current c hc hl => ?_,
    fun current => ?_, fun current => rfl⟩
  · rw [detectPRChanges, List.map_map]
    calc current.map (Prod.fst ∘ classifyPR stored)
        = current.map id := List.map_congr_left (fun c _ => fst_classify stored c)
      _ = current := List.map_id current
  · refine List.mem_map.mpr ⟨c, hc, ?_⟩
    unfold classifyPR
    rw [hl]
  · unfold detectPRChanges
    refine List.map_congr_left (fun c _ => ?_)
    unfold classifyPR
    rfl

/-- Witness for C5: the absent-PR clause applied to a concrete one-element
current list against empty stored states. -/
theorem detect_pr_changes_new_coverage_witness :
    (PRState.make "7" "open" "t" "sha" none none false, ChangeKind.new) ∈
      detectPRChanges []
        [PRState.make "7" "open" "t" "sha" none none false] :=
  detect_pr_changes_new_coverage.2.1 []
    [PRState.make "7" "open" "t" "sha" none none false]
    (PRState.make "7" "open" "t" "sha" none none false)
    (by simp) rfl

/-- C8: for every issue body and every outcome of the JSON library on the
delimited block, the read path returns the empty dashboard dict (and hence
the empty polling-metadata object) whenever the block is absent, fails to
parse, or parses to a non-object; the functions are total, so no exception
reaches the caller. -/
theorem extract_dashboard_data_recovers :
    ∀ (parse : String → JsonParseResult) (body : Option String),
      (findDashboardBlock (body.getD "") = none →
        extractDashboardData parse body = [] ∧
        extractPollingData parse body = JVal.jobj []) ∧
      (∀ content, findDashboardBlock (body.getD "") = some content →
        parse content = JsonParseResult.err →
        extractDashboardData parse body = [] ∧
        extractPollingData parse body = JVal.jobj []) ∧
      (∀ content v, findDashboardBlock (body.getD "") = some content →
        parse content = JsonParseResult.ok v → asObj v = none →
        extractDashboardData parse body = [] ∧
        extractPollingData parse body = JVal.jobj []) := by
  intro parse body
  refine ⟨fun hb => ?_, fun content hb hp => ?_, fun content v hb hp hv => ?_⟩
  · constructor
    · simp [extractDashboardData, hb]
    · simp [extractPollingData, extractDashboardData, hb, jGetD]
  · constructor
    · simp [extractDashboardData, hb, hp]
    · simp [extractPollingData, extractDashboardData, hb, hp, jGetD]
  · constructor
    · cases v with
      | jobj d => simp [asObj] at hv
      | jnull => simp [extractDashboardData, hb, hp]
      | jbool b => simp [extractDashboardData, hb, hp]
      | jnum n => simp [extractDashboardData, hb, hp]
      | jstr s => simp [extractDashboardData, hb, hp]
      | jarr xs => simp [extractDashboardData, hb, hp]
    · cases v with
      | jobj d => simp [asObj] at hv
      | jnull => simp [extractPollingData, extractDashboardData, hb, hp, jGetD]
      | jbool b => simp [extractPollingData, extractDashboardData, hb, hp, jGetD]
      | jnum n => simp [extractPollingData, extractDashboardData, hb, hp, jGetD]
      | jstr s => simp [extractPollingData, extractDashboardData, hb, hp, jGetD]
      | jarr xs => simp [extractPollingData, extractDashboardData, hb, hp, jGetD]

/-- Witness for C8: a concrete body without a DASHBOARD_DATA block, and a
concrete body whose block content the JSON library rejects, both yield the
empty dict. -/
theorem extract_dashboard_data_recovers_witness :
    extractDashboardData (fun _ => JsonParseResult.err) (some "no block here") = [] ∧
    extractDashboardData (fun _ => JsonParseResult.err)
      (some "<!-- DASHBOARD_DATA\nnot json\n-->") = [] :=
  ⟨((extract_dashboard_data_recovers (fun _ => JsonParseResult.err)
      (some "no block here")).1 (by decide)).1,
   ((extract_dashboard_data_recovers (fun _ => JsonParseResult.err)
      (some "<!-- DASHBOARD_DATA\nnot json\n-->")).2.1 "not json" (by decide) rfl).1⟩

end RenovateAgent
